import Mathlib

attribute [local semireducible] Rat.add Rat.mul Rat.inv Rat.sub Rat.ofScientific

/-!
Shallow embedding of the synthetic healthcare data generator of this
repository (ml/src/data/generate_synthetic.py together with the entity
schema in ml/src/data/schema.py), with theorems about the embedded code.

Modelling conventions:
- Python dates are integer day numbers (days since 1970-01-01); Python
  datetimes are integer minutes since 1970-01-01T00:00; a timedelta in
  days corresponds to 1440 minutes.
- Python floats are modelled as rationals.
- The random module and the numpy generator are modelled as explicit
  streams of raw natural-number draws (one raw value per primitive call);
  library primitives (randint, random, choice, choices, sample,
  np.random.gamma) map each raw value into their documented result range.
- Faker is modelled as an indexed family of strings together with a
  position counter.
- The process-dependent Python string hash is modelled as an explicit
  function parameter.
-/

/-- Raw entropy stream standing for one of the seeded random sources. -/
structure RS where
  seq : Nat → Nat
  pos : Nat

/-- Consume one raw value from the stream. -/
def RS.next (r : RS) : Nat × RS := (r.seq r.pos, ⟨r.seq, r.pos + 1⟩)

/-- Model of random.randint(lo, hi); callers in the source always satisfy
lo ≤ hi, in which case the result lies in [lo, hi]. -/
def randint (lo hi : ℤ) (r : RS) : ℤ × RS :=
  (lo + (((r.next.1 : ℤ)) % (hi - lo + 1)), r.next.2)

/-- Model of random.random(): a rational in [0, 1) with 53-bit granularity. -/
def randFloat (r : RS) : ℚ × RS :=
  (((r.next.1 % 2 ^ 53 : ℕ) : ℚ) / (2 ^ 53 : ℚ), r.next.2)

/-- Model of random.choice: uniform index into the list; the empty list
gives none (an IndexError in the source). -/
def choice {α : Type} (l : List α) (r : RS) : Option α × RS :=
  (l.get? (r.next.1 % l.length), r.next.2)

/-- Variant of choice used where the source list is a nonempty constant,
so the none branch is unreachable. -/
def choiceD {α : Type} (l : List α) (d : α) (r : RS) : α × RS :=
  ((choice l r).1.getD d, (choice l r).2)

/-- Number of cumulative-weight prefixes that are not above the target;
for nonnegative weights this is bisect.bisect on the cumulative weights,
as used by random.choices. -/
def bisectCum (l : List ℚ) (acc t : ℚ) : ℕ :=
  match l with
  | [] => 0
  | w :: ws => if acc + w ≤ t then 1 + bisectCum ws (acc + w) t else 0

/-- Model of weighted_choice from the source (random.choices with one
draw): pick by cumulative weights against random() times the total. -/
def weighted_choice {α : Type} (options : List (α × ℚ)) (r : RS) : Option α × RS :=
  let u := (randFloat r).1
  let r' := (randFloat r).2
  let total := (options.map Prod.snd).sum
  let idx := min (bisectCum (options.map Prod.snd) 0 (u * total)) (options.length - 1)
  ((options.map Prod.fst).get? idx, r')

/-- Variant of weighted_choice used where the weight table is a nonempty
constant, so the none branch is unreachable. -/
def wchoiceD {α : Type} (options : List (α × ℚ)) (d : α) (r : RS) : α × RS :=
  ((weighted_choice options r).1.getD d, (weighted_choice options r).2)

/-- Model of random.sample(l, len(l)): a stream-driven permutation built
by repeatedly picking a uniform index and removing it. -/
def sampleAux {α : Type} (fuel : ℕ) (l : List α) (r : RS) : List α × RS :=
  match fuel, l with
  | 0, _ => (l, r)
  | _ + 1, [] => ([], r)
  | fuel + 1, a :: rest =>
    let v := r.next.1
    let r1 := r.next.2
    let i := v % (rest.length + 1)
    let x := (a :: rest).getD i a
    let l' := (a :: rest).eraseIdx i
    let p := sampleAux fuel l' r1
    (x :: p.1, p.2)

/-- Model of random.sample(l, len(l)). -/
def sample {α : Type} (l : List α) (r : RS) : List α × RS :=
  sampleAux l.length l r

/-- Model of gamma_lead_time: int(np.clip(np.random.gamma(2, 7), 0, 90)),
an integer in [0, 90] drawn from the numpy stream. -/
def gamma_lead_time (g : RS) : ℤ × RS :=
  (((g.next.1 % 91 : ℕ) : ℤ), g.next.2)

/-! Entity enumerations from schema.py. -/

inductive Gender where
  | MALE | FEMALE | OTHER
  deriving DecidableEq, Repr

inductive AgeBucket where
  | PEDIATRIC | YOUNG_ADULT | MIDDLE_AGED | SENIOR
  deriving DecidableEq, Repr

inductive ProviderType where
  | PHYSICIAN | NURSE_PRACTITIONER | PHYSICIAN_ASSISTANT | REGISTERED_NURSE | MEDICAL_ASSISTANT
  deriving DecidableEq, Repr

inductive AppointmentStatus where
  | SCHEDULED | CHECKED_IN | CHECKED_OUT | COMPLETE | CANCELLED | NO_SHOW | RESCHEDULED
  deriving DecidableEq, Repr

inductive VirtualFlag where
  | NON_VIRTUAL | VIRTUAL_VIDEO | VIRTUAL_TELEPHONE
  deriving DecidableEq, Repr

inductive NewPatientFlag where
  | NEW_PATIENT | ESTABLISHED
  deriving DecidableEq, Repr

inductive PlaceOfServiceType where
  | OFFICE | TELEHEALTH | HOSPITAL | URGENT_CARE | OTHER
  deriving DecidableEq, Repr

inductive PayerGrouping where
  | COMMERCIAL | MEDICARE | MEDICAID | SELF_PAY
  deriving DecidableEq, Repr

/-- Patient entity from schema.py; the timestamp is minutes since epoch. -/
structure Patient where
  patientid : ℤ
  enterpriseid : ℤ
  patient_gender : Gender
  patient_age_bucket : AgeBucket
  patient_race_ethnicity : Option String := none
  patient_email : Option String := none
  patient_zip_code : Option String := none
  portal_enterpriseid : Option ℤ := none
  portal_last_login : Option ℤ := none
  historical_no_show_count : ℕ := 0
  historical_no_show_rate : ℚ := 0
  deriving DecidableEq, Repr

/-- Check whether the portal login was within the last 90 days; the days
of the timedelta between two minute-stamps is the floor of the difference
divided by 1440. -/
def Patient.portal_engaged (p : Patient) (now : ℤ) : Bool :=
  match p.portal_last_login with
  | none => false
  | some login => (now - login).fdiv 1440 ≤ 90

/-- Provider entity from schema.py. -/
structure Provider where
  providerid : ℤ
  providerfirstname : String
  providerlastname : String
  providertype : ProviderType
  provider_specialty : String
  pro_providerid : Option ℤ := none
  providertypecategory : Option String := none
  provider_specialty_service_line : Option String := none
  providernpinumber : Option String := none
  provider_affiliation : Option String := none
  entitytype : Option String := none
  billableyn : Option String := none
  patientfacingname : Option String := none
  deriving DecidableEq, Repr

/-- Department entity from schema.py. -/
structure Department where
  departmentid : ℤ
  departmentname : String
  departmentspecialty : Option String := none
  billingname : Option String := none
  placeofservicecode : Option String := none
  placeofservicetype : Option PlaceOfServiceType := none
  providergroupid : Option ℤ := none
  departmentgroup : Option String := none
  contextid : Option ℤ := none
  contextname : Option String := none
  market : Option String := none
  division : Option String := none
  business_unit : Option String := none
  deriving DecidableEq, Repr

/-- Insurance entity from schema.py. -/
structure Insurance where
  primarypatientinsuranceid : ℤ
  patientid : ℤ
  sipg1 : Option String := none
  sipg2 : Option PayerGrouping := none
  insurance_plan_1_company_description : Option String := none
  insurance_group_id : Option String := none
  deriving DecidableEq, Repr

/-- Appointment entity from schema.py; the HH:MM start-time string is
modelled as its parsed (hour, minute) pair, dates as day numbers and
datetimes as minutes since epoch.  The two supplied* fields are ghost
fields recording the history statistics handed to
calculate_no_show_probability when the appointment was generated; they
mirror the patient mutation on lines 707-708 of the source and exist so
that data-provenance statements can be made about a generated run. -/
structure Appointment where
  appointmentid : ℤ
  patientid : ℤ
  providerid : ℤ
  departmentid : ℤ
  appointmentdate : ℤ
  appointmentstarttime : ℤ × ℤ
  appointmentduration : ℤ
  appointmenttypeid : ℤ
  appointmenttypename : String
  appointmentstatus : AppointmentStatus
  appointmentcreateddatetime : ℤ
  appointmentscheduleddatetime : ℤ
  parentappointmentid : Option ℤ := none
  referringproviderid : Option ℤ := none
  referralauthid : Option ℤ := none
  appointmentcreatedby : Option String := none
  scheduledby : Option String := none
  appointmentcheckindatetime : Option ℤ := none
  appointmentcheckoutdatetime : Option ℤ := none
  appointmentcancelleddatetime : Option ℤ := none
  cancelledby : Option String := none
  appointmentcancelreason : Option String := none
  rescheduledappointmentid : Option ℤ := none
  rescheduleddatetime : Option ℤ := none
  rescheduledby : Option String := none
  startcheckindatetime : Option ℤ := none
  stopsignoffdatetime : Option ℤ := none
  appointmentdeleteddatetime : Option ℤ := none
  claimid : Option ℤ := none
  cycletime : Option ℚ := none
  frozenyn : Option String := none
  appointmentfrozenreason : Option String := none
  webschedulableyn : Option ℤ := none
  virtual_flag : VirtualFlag := VirtualFlag.NON_VIRTUAL
  new_patient_flag : NewPatientFlag := NewPatientFlag.ESTABLISHED
  suppliedHistCount : ℕ := 0
  suppliedHistRate : ℚ := 0
  deriving DecidableEq, Repr

/-- Combined appointment date and start time, in minutes since epoch. -/
def Appointment.appointmentdatetime (a : Appointment) : ℤ :=
  a.appointmentdate * 1440 + a.appointmentstarttime.1 * 60 + a.appointmentstarttime.2

/-- Check whether the appointment is in the past relative to now. -/
def Appointment.is_past (a : Appointment) (now : ℤ) : Bool :=
  a.appointmentdatetime < now

/-- Derived no-show property from schema.py: an explicit No Show status,
or a past Scheduled appointment with no recorded check-in. -/
def Appointment.no_show (a : Appointment) (now : ℤ) : Bool :=
  if a.appointmentstatus = AppointmentStatus.NO_SHOW then
    true
  else if a.is_past now ∧ a.appointmentstatus = AppointmentStatus.SCHEDULED
      ∧ a.appointmentcheckindatetime = none then
    true
  else
    false

/-! Configuration constants from generate_synthetic.py. -/

def AGE_BUCKET_WEIGHTS : List (AgeBucket × ℚ) :=
  [(AgeBucket.PEDIATRIC, 0.15), (AgeBucket.YOUNG_ADULT, 0.30),
   (AgeBucket.MIDDLE_AGED, 0.35), (AgeBucket.SENIOR, 0.20)]

def GENDER_WEIGHTS : List (Gender × ℚ) :=
  [(Gender.FEMALE, 0.55), (Gender.MALE, 0.44), (Gender.OTHER, 0.01)]

def PAYER_WEIGHTS : List (PayerGrouping × ℚ) :=
  [(PayerGrouping.COMMERCIAL, 0.40), (PayerGrouping.MEDICARE, 0.25),
   (PayerGrouping.MEDICAID, 0.20), (PayerGrouping.SELF_PAY, 0.15)]

def VIRTUAL_FLAG_WEIGHTS : List (VirtualFlag × ℚ) :=
  [(VirtualFlag.NON_VIRTUAL, 0.70), (VirtualFlag.VIRTUAL_VIDEO, 0.20),
   (VirtualFlag.VIRTUAL_TELEPHONE, 0.10)]

def NEW_PATIENT_FLAG_WEIGHTS : List (NewPatientFlag × ℚ) :=
  [(NewPatientFlag.NEW_PATIENT, 0.25), (NewPatientFlag.ESTABLISHED, 0.75)]

def DURATION_WEIGHTS : List (ℤ × ℚ) :=
  [(15, 0.40), (30, 0.35), (45, 0.15), (60, 0.10)]

def JOURNEY_TYPE_WEIGHTS : List (String × ℚ) :=
  [("routine_care", 0.40), ("chronic_management", 0.25), ("episodic", 0.20),
   ("referral_chain", 0.10), ("care_abandonment", 0.05)]

/-- Base rate constant from the source; deliberately negative, it becomes a
valid probability only after the additive adjustments and the final clamp. -/
def BASE_NO_SHOW_RATE : ℚ := -0.02

/-- Seasonality windows in source order: ((start month, start day),
(end month, end day), modifier). -/
def SEASONALITY_MODIFIERS : List ((ℤ × ℤ) × (ℤ × ℤ) × ℚ) :=
  [((12, 20), (1, 5), 0.15),
   ((7, 1), (8, 15), 0.08),
   ((8, 15), (8, 31), 0.05),
   ((4, 1), (4, 15), 0.03)]

def SPECIALTIES : List String :=
  ["Family Medicine", "Internal Medicine", "Pediatrics", "Cardiology",
   "Orthopedics", "Dermatology", "Neurology", "Gastroenterology",
   "Endocrinology", "Pulmonology", "OB/GYN", "Psychiatry", "Rheumatology",
   "Urology", "Ophthalmology"]

def APPOINTMENT_TYPES_primary_care : List (String × ℤ) :=
  [("Annual Wellness Exam", 30), ("Follow-up Visit", 15), ("New Patient Visit", 45),
   ("Sick Visit", 15), ("Preventive Care", 30)]

def APPOINTMENT_TYPES_specialty : List (String × ℤ) :=
  [("Consultation", 45), ("Follow-up Visit", 30), ("Procedure", 60),
   ("New Patient Eval", 60)]

def APPOINTMENT_TYPES_telehealth : List (String × ℤ) :=
  [("Virtual Follow-up", 15), ("Video Visit", 30), ("Phone Consultation", 15)]

def INSURANCE_COMPANIES : PayerGrouping → List String
  | PayerGrouping.COMMERCIAL =>
      ["Blue Cross Blue Shield", "United Healthcare", "Aetna", "Cigna", "Humana"]
  | PayerGrouping.MEDICARE =>
      ["Medicare Part B", "Medicare Advantage", "Medicare Supplement"]
  | PayerGrouping.MEDICAID => ["Medicaid", "Managed Medicaid Plan"]
  | PayerGrouping.SELF_PAY => ["Self-Pay", "Uninsured"]

def primary_care_specialties : List String :=
  ["Family Medicine", "Internal Medicine", "Pediatrics"]

/-! Calendar helpers embedding the Python date type on day numbers. -/

/-- Month and day of month of a day number (days since 1970-01-01),
via the standard civil-from-days conversion for the Gregorian calendar. -/
def civilMonthDay (z : ℤ) : ℤ × ℤ :=
  let z' := z + 719468
  let era := z'.fdiv 146097
  let doe := z' - era * 146097
  let yoe := (doe - doe.fdiv 1460 + doe.fdiv 36524 - doe.fdiv 146096).fdiv 365
  let doy := doe - (365 * yoe + yoe.fdiv 4 - yoe.fdiv 100)
  let mp := (5 * doy + 2).fdiv 153
  let d := doy - (153 * mp + 2).fdiv 5 + 1
  let m := if mp < 10 then mp + 3 else mp - 9
  (m, d)

/-- Day of the week of a day number, Monday = 0 as in Python. -/
def weekdayOf (z : ℤ) : ℤ := (z + 3).emod 7

theorem civilMonthDay_epoch : civilMonthDay 0 = (1, 1) := by decide

theorem civilMonthDay_20241225 : civilMonthDay 20082 = (12, 25) := by decide

/-! No-show probability model. -/

/-- Loop of _get_seasonality_modifier over the seasonality windows:
year-wrap windows (start month greater than end month) match via an OR of
the after-start and before-end checks, other windows via a guarded range
check; the first matching window wins, otherwise 0. -/
def seasonLoop (month day : ℤ) : List ((ℤ × ℤ) × (ℤ × ℤ) × ℚ) → ℚ
  | [] => 0
  | ((sm, sd), (em, ed), w) :: rest =>
    if sm > em then
      if month ≥ sm ∧ day ≥ sd then w
      else if month ≤ em ∧ day ≤ ed then w
      else seasonLoop month day rest
    else
      if sm ≤ month ∧ month ≤ em then
        if (month > sm ∨ day ≥ sd) ∧ (month < em ∨ day ≤ ed) then w
        else seasonLoop month day rest
      else seasonLoop month day rest

/-- Seasonality modifier for a given date (a day number). -/
def _get_seasonality_modifier (appointment_date : ℤ) : ℚ :=
  seasonLoop (civilMonthDay appointment_date).1 (civilMonthDay appointment_date).2
    SEASONALITY_MODIFIERS

/-- No-show probability from evidence-based factors, embedding
calculate_no_show_probability line by line: ordered additive adjustments
on top of the base constant, then a clamp to [0.03, 0.85].  The payer
group is optional because the caller in generate_appointments passes the
sipg2 field of an insurance record, which is an Optional enum; a missing
value matches none of the payer comparisons.  The perfect-attendance
branch of the source (line 428) is guarded by hasattr(patient,
_has_history); no code in the repository ever sets that attribute and the
Patient dataclass does not declare it, so for every Patient value the
guard is false and the branch is dead; it is therefore omitted here.
The now parameter stands for the wall clock read by the portal_engaged
property. -/
def calculate_no_show_probability (patient : Patient) (appointment_date : ℤ)
    (lead_time_days : ℤ) (hour_of_day : ℤ) (day_of_week : ℤ)
    (virtual_flag : VirtualFlag) (new_patient_flag : NewPatientFlag)
    (payer_group : Option PayerGrouping) (web_scheduled : Bool)
    (journey_stage : String) (now : ℤ) : ℚ :=
  let probability := BASE_NO_SHOW_RATE
  -- lead time bands
  let probability := probability +
    (if lead_time_days ≤ 0 then -0.12
     else if lead_time_days ≤ 3 then -0.06
     else if lead_time_days ≤ 7 then 0.04
     else if lead_time_days ≤ 14 then 0.10
     else if lead_time_days ≤ 30 then 0.14
     else 0.16)
  -- age bucket
  let probability := probability +
    (if patient.patient_age_bucket = AgeBucket.PEDIATRIC then 0.03
     else if patient.patient_age_bucket = AgeBucket.YOUNG_ADULT then 0.04
     else if patient.patient_age_bucket = AgeBucket.MIDDLE_AGED then -0.02
     else if patient.patient_age_bucket = AgeBucket.SENIOR then -0.05
     else 0)
  -- patient history (capped contribution)
  let probability := probability +
    (if patient.historical_no_show_count > 0 then
       min 0.20 (patient.historical_no_show_rate * 0.5)
     else 0)
  -- payer type
  let probability := probability +
    (if payer_group = some PayerGrouping.MEDICAID then 0.06
     else if payer_group = some PayerGrouping.SELF_PAY then 0.08
     else if payer_group = some PayerGrouping.MEDICARE then -0.03
     else 0)
  -- day of week
  let probability := probability +
    (if day_of_week = 0 then 0.03 else if day_of_week = 4 then 0.02 else 0)
  -- time of day
  let probability := probability +
    (if 14 ≤ hour_of_day ∧ hour_of_day ≤ 16 then 0.02
     else if 7 ≤ hour_of_day ∧ hour_of_day ≤ 9 then -0.03
     else 0)
  -- new patient
  let probability := probability +
    (if new_patient_flag = NewPatientFlag.NEW_PATIENT then 0.04 else 0)
  -- virtual appointments
  let probability := probability +
    (if virtual_flag = VirtualFlag.VIRTUAL_VIDEO then -0.05
     else if virtual_flag = VirtualFlag.VIRTUAL_TELEPHONE then -0.03
     else 0)
  -- portal engagement
  let probability := probability +
    (if ¬ patient.portal_engaged now then 0.03 else 0)
  -- web scheduled
  let probability := probability + (if web_scheduled then -0.02 else 0)
  -- seasonality
  let probability := probability + _get_seasonality_modifier appointment_date
  -- journey stage
  let probability := probability +
    (if journey_stage = "care_abandonment_escalating" then 0.20 else 0)
  max 0.03 (min 0.85 probability)

/-! Entity generators. -/

/-- Left-pad a string with zeros to the given width (str.zfill). -/
def zfill (s : String) (w : ℕ) : String :=
  String.mk (List.replicate (w - s.length) '0') ++ s

/-- Pre-generated zip code pool: n draws of randint(10001, 99999). -/
def genZipCodes (n : ℕ) (r : RS) : List String × RS :=
  match n with
  | 0 => ([], r)
  | n + 1 =>
    let q := randint 10001 99999 r
    let tl := genZipCodes n q.2
    (zfill (toString q.1) 5 :: tl.1, tl.2)

/-- Race and ethnicity options with weights, including the none entry. -/
def RACE_ETHNICITY_OPTIONS : List (Option String × ℚ) :=
  [(some "White", 0.60), (some "Black or African American", 0.13),
   (some "Hispanic or Latino", 0.12), (some "Asian", 0.06),
   (some "American Indian", 0.01), (some "Native Hawaiian", 0.01),
   (some "Two or More Races", 0.03), (some "Other", 0.02), (none, 0.02)]

/-- Body of the generate_patients loop over the listed patient ids;
emailOf is the Faker email source indexed by a running position. -/
def genPatientsLoop (zips : List String) (emailOf : ℕ → String) (now : ℤ) :
    List ℤ → RS → ℕ → List Patient × RS × ℕ
  | [], r, fk => ([], r, fk)
  | pid :: rest, r, fk =>
    let gq := wchoiceD GENDER_WEIGHTS Gender.FEMALE r
    let aq := wchoiceD AGE_BUCKET_WEIGHTS AgeBucket.PEDIATRIC gq.2
    let hq := randFloat aq.2
    let has_portal := hq.1 < 0.70
    let portal : Option ℤ × RS :=
      if has_portal then
        let acq := randFloat hq.2
        let dq := if acq.1 < 0.50 then randint 1 60 acq.2 else randint 91 365 acq.2
        (some (now - dq.1 * 1440), dq.2)
      else (none, hq.2)
    let rq := wchoiceD RACE_ETHNICITY_OPTIONS none portal.2
    let eq' := randFloat rq.2
    let email : Option String × ℕ :=
      if eq'.1 < 0.80 then (some (emailOf fk), fk + 1) else (none, fk)
    let zq := choiceD zips "00000" eq'.2
    let patient : Patient := {
      patientid := pid, enterpriseid := 1000000 + pid,
      patient_gender := gq.1, patient_age_bucket := aq.1,
      patient_race_ethnicity := rq.1, patient_email := email.1,
      patient_zip_code := some zq.1,
      portal_enterpriseid := if has_portal then some pid else none,
      portal_last_login := portal.1,
      historical_no_show_count := 0, historical_no_show_rate := 0 }
    let tl := genPatientsLoop zips emailOf now rest zq.2 email.2
    (patient :: tl.1, tl.2.1, tl.2.2)

/-- Generate synthetic patient records; count is the Python int argument
(a nonpositive count yields an empty range). -/
def generate_patients (count : ℤ) (emailOf : ℕ → String) (now : ℤ) (r : RS)
    (fk : ℕ) : List Patient × RS × ℕ :=
  let zq := genZipCodes 100 r
  genPatientsLoop zq.1 emailOf now ((List.range count.toNat).map (fun i => (i : ℤ) + 1))
    zq.2 fk

/-- Generate insurance records linked to patients, one per patient in
order; the group id draw happens only for non self-pay payers. -/
def generate_insurance : List Patient → RS → List Insurance × RS
  | [], r => ([], r)
  | p :: rest, r =>
    let pq := wchoiceD PAYER_WEIGHTS PayerGrouping.COMMERCIAL r
    let cq := choiceD (INSURANCE_COMPANIES pq.1) "Self-Pay" pq.2
    let gq : Option String × RS :=
      if pq.1 ≠ PayerGrouping.SELF_PAY then
        let q := randint 100000 999999 cq.2
        (some (toString q.1), q.2)
      else (none, cq.2)
    let ins : Insurance := {
      primarypatientinsuranceid := p.patientid, patientid := p.patientid,
      sipg1 := some (((cq.1.replace " " "_").toUpper).take 10),
      sipg2 := some pq.1,
      insurance_plan_1_company_description := some cq.1,
      insurance_group_id := gq.1 }
    let tl := generate_insurance rest gq.2
    (ins :: tl.1, tl.2)

/-! Historical statistics backfill. -/

/-- One step of the statistics loop of _update_patient_statistics: count
a past appointment into the (total, no_shows) pair of its patient. -/
def statsStep (today now : ℤ) (m : ℤ → ℕ × ℕ) (a : Appointment) : ℤ → ℕ × ℕ :=
  if a.appointmentdate ≤ today then
    fun pid =>
      if pid = a.patientid then
        ((m a.patientid).1 + 1, (m a.patientid).2 + (if a.no_show now then 1 else 0))
      else m pid
  else m

/-- Dictionary of per-patient (total, no_shows) counters over past
appointments, as built by the loop of _update_patient_statistics;
modelled as a total function that is zero outside the touched keys. -/
def statsFold (today now : ℤ) (l : List Appointment) : ℤ → ℕ × ℕ :=
  l.foldl (statsStep today now) (fun _ => (0, 0))

/-- Update patient historical no-show statistics from the complete
appointment set; the rate divides by max 1 total. -/
def _update_patient_statistics (patients : List Patient)
    (appointments : List Appointment) (today now : ℤ) : List Patient :=
  let stats := statsFold today now appointments
  patients.map (fun p =>
    { p with
      historical_no_show_count := (stats p.patientid).2,
      historical_no_show_rate :=
        ((stats p.patientid).2 : ℚ) / ((max 1 (stats p.patientid).1 : ℕ) : ℚ) })

/-! Appointment generation with patient journeys. -/

/-- Providers grouped by specialty (dict get, empty when missing). -/
def providersBySpecialty (providers : List Provider) (spec : String) : List Provider :=
  providers.filter (fun pr => pr.provider_specialty == spec)

/-- Departments grouped by specialty, None mapping to General. -/
def departmentsBySpecialty (departments : List Department) (spec : String) : List Department :=
  departments.filter (fun d => d.departmentspecialty.getD "General" == spec)

/-- Per-patient running statistics tracked across passes. -/
structure PStat where
  no_shows : ℕ
  total : ℕ
  last_appt_date : Option ℤ
  deriving Repr

/-- Fixed context of one generate_appointments call. -/
structure GenCtx where
  patients : List Patient
  providers : List Provider
  departments : List Department
  journeys : ℤ → String
  insuranceByPatient : ℤ → Option Insurance
  count : ℤ
  startDate : ℤ
  endDate : ℤ
  today : ℤ
  now : ℤ
  hashFn : String → ℤ

/-- Mutable state of the generation loops.  apptDateVar models the
function-level appt_date variable of the source, which leaks across
loop iterations; none means not yet assigned. -/
structure SimSt where
  rs : RS
  npr : RS
  stats : ℤ → PStat
  apptDateVar : Option ℤ
  appts : List Appointment
  nextId : ℤ
  created : ℕ

/-- Local counters of the per-patient appointment loop. -/
structure InnerCarry where
  noShows : ℕ
  total : ℕ
  parent : Option ℤ
  deriving Repr

/-- Specialty selection: referral chains force a primary-care specialty
on the first visit and a non-primary-care one afterwards. -/
def pickSpecialty (journey : String) (apptNum : ℕ) (r : RS) : String × RS :=
  if journey = "referral_chain" then
    if apptNum = 0 then choiceD primary_care_specialties "Family Medicine" r
    else choiceD (SPECIALTIES.filter (fun s => !(primary_care_specialties.contains s)))
      "Cardiology" r
  else choiceD SPECIALTIES "Family Medicine" r

/-- Appointment type selection by modality and specialty. -/
def pickApptType (vf : VirtualFlag) (specialty : String) (r : RS) : (String × ℤ) × RS :=
  if vf ≠ VirtualFlag.NON_VIRTUAL then
    choiceD APPOINTMENT_TYPES_telehealth ("Video Visit", 30) r
  else if primary_care_specialties.contains specialty then
    choiceD APPOINTMENT_TYPES_primary_care ("Sick Visit", 15) r
  else choiceD APPOINTMENT_TYPES_specialty ("Consultation", 45) r

/-- Appointment date selection; continuation dates past the window end
wrap back to a random offset from the window start.  The none result
models the unbound appt_date NameError path of the source (an appt_num
past zero before any date was ever assigned), which is unreachable. -/
def pickDate (journey : String) (apptNum : ℕ) (lastApptDate apptDateVar : Option ℤ)
    (startD endD : ℤ) (r : RS) : Option (ℤ × RS) :=
  if apptNum = 0 then
    match lastApptDate with
    | none =>
      let q := randint 0 ((endD - startD) - 30) r
      some (startD + q.1, q.2)
    | some lastD =>
      let q := randint 7 90 r
      let d := lastD + q.1
      if d > endD then
        let q2 := randint 0 365 q.2
        some (startD + q2.1, q2.2)
      else some (d, q.2)
  else
    match apptDateVar with
    | none => none
    | some prevD =>
      let q :=
        if journey = "chronic_management" then randint 21 90 r
        else if journey = "care_abandonment" then randint 14 45 r
        else randint 7 180 r
      let d := prevD + q.1
      if d > endD then
        let q2 := randint 0 365 q.2
        some (startD + q2.1, q2.2)
      else some (d, q.2)

/-- Outcome determination for one appointment: future appointments stay
Scheduled with no draw; past appointments roll once against the no-show
probability, then the flat 0.10 cancellation band, else Complete with
synthesized check-in and check-out times.  Returns status, the no-show
flag, check-in, check-out and the advanced stream. -/
def drawOutcome (is_future : Bool) (no_show_prob : ℚ) (appt_dt duration : ℤ)
    (r : RS) : AppointmentStatus × Bool × Option ℤ × Option ℤ × RS :=
  if is_future then (AppointmentStatus.SCHEDULED, false, none, none, r)
  else
    let rq := randFloat r
    if rq.1 < no_show_prob then
      (AppointmentStatus.NO_SHOW, true, none, none, rq.2)
    else if rq.1 < no_show_prob + 0.10 then
      (AppointmentStatus.CANCELLED, false, none, none, rq.2)
    else
      let ciq := randint 5 30 rq.2
      let coq := randint 5 45 ciq.2
      (AppointmentStatus.COMPLETE, false, some (appt_dt - ciq.1),
       some (appt_dt + duration + coq.1), coq.2)

/-- The no-show flag of an outcome is set exactly when the status is
No Show. -/
theorem drawOutcome_noshow_iff (is_future : Bool) (p : ℚ) (dt du : ℤ) (r : RS) :
    (drawOutcome is_future p dt du r).2.1 = true ↔
      (drawOutcome is_future p dt du r).1 = AppointmentStatus.NO_SHOW := by
  unfold drawOutcome
  cases is_future
  · simp only [Bool.false_eq_true, if_false]
    split_ifs <;> simp
  · simp

/-- Future appointments always come out Scheduled. -/
theorem drawOutcome_future (p : ℚ) (dt du : ℤ) (r : RS) :
    (drawOutcome true p dt du r).1 = AppointmentStatus.SCHEDULED := by
  unfold drawOutcome
  simp

/-- Tail of the inner loop body of generate_appointments once specialty,
provider, department and date have been selected: time-slot, modality,
lead-time and type draws, probability, outcome, history update and the
appointment record itself. -/
def buildAppointment (ctx : GenCtx) (patient : Patient) (journey : String)
    (payer : Option PayerGrouping) (apptNum : ℕ) (c : InnerCarry) (st : SimSt)
    (specialty : String) (provider : Provider) (department : Department)
    (apptDate : ℤ) (r1 : RS) : InnerCarry × SimSt :=
  let hq := randint 7 16 r1
  let hour := hq.1
  let mq := choiceD [0, 15, 30, 45] 0 hq.2
  let minute := mq.1
  let vq := wchoiceD VIRTUAL_FLAG_WEIGHTS VirtualFlag.NON_VIRTUAL mq.2
  let virtual_flag := vq.1
  let new_patient_flag :=
    if c.total = 0 ∧ apptNum = 0 then NewPatientFlag.NEW_PATIENT
    else NewPatientFlag.ESTABLISHED
  let duq := wchoiceD DURATION_WEIGHTS 15 vq.2
  let duration := duq.1
  let lq := gamma_lead_time st.npr
  let lead_time := lq.1
  let scheduled_datetime := apptDate * 1440 - lead_time * 1440
  let wq := randFloat duq.2
  let web_scheduled :=
    wq.1 < (if patient.portal_engaged ctx.now then (0.40 : ℚ) else 0.15)
  let tq := pickApptType virtual_flag specialty wq.2
  let appt_type_name := tq.1.1
  let journey_stage :=
    if journey = "care_abandonment" ∧ 2 ≤ apptNum then
      "care_abandonment_escalating"
    else "normal"
  let patient' := { patient with
    historical_no_show_count := c.noShows,
    historical_no_show_rate := (c.noShows : ℚ) / ((max 1 c.total : ℕ) : ℚ) }
  let no_show_prob := calculate_no_show_probability patient' apptDate
    lead_time hour (weekdayOf apptDate) virtual_flag new_patient_flag payer
    web_scheduled journey_stage ctx.now
  let is_future := decide (apptDate > ctx.today)
  let outcome := drawOutcome is_future no_show_prob
    (apptDate * 1440 + hour * 60 + minute) duration tq.2
  let status := outcome.1
  let is_no_show := outcome.2.1
  let checkin := outcome.2.2.1
  let checkout := outcome.2.2.2.1
  let r2 := outcome.2.2.2.2
  let noShows' :=
    if !is_future then (if is_no_show then c.noShows + 1 else c.noShows)
    else c.noShows
  let total' := if !is_future then c.total + 1 else c.total
  let cq := randint 0 5 r2
  let createdDT := scheduled_datetime - cq.1 * 1440
  let a : Appointment := {
    appointmentid := st.nextId, patientid := patient.patientid,
    providerid := provider.providerid, departmentid := department.departmentid,
    appointmentdate := apptDate, appointmentstarttime := (hour, minute),
    appointmentduration := duration,
    appointmenttypeid := (ctx.hashFn appt_type_name).emod 1000,
    appointmenttypename := appt_type_name, appointmentstatus := status,
    appointmentcreateddatetime := createdDT,
    appointmentscheduleddatetime := scheduled_datetime,
    parentappointmentid := c.parent,
    referringproviderid :=
      if journey = "referral_chain" ∧ 0 < apptNum then some provider.providerid
      else none,
    appointmentcheckindatetime := checkin,
    appointmentcheckoutdatetime := checkout,
    appointmentcancelleddatetime :=
      if status = AppointmentStatus.CANCELLED then some scheduled_datetime
      else none,
    webschedulableyn := some (if web_scheduled then 1 else 0),
    virtual_flag := virtual_flag, new_patient_flag := new_patient_flag,
    suppliedHistCount := c.noShows,
    suppliedHistRate := (c.noShows : ℚ) / ((max 1 c.total : ℕ) : ℚ) }
  (⟨noShows', total', some st.nextId⟩,
   { st with
     rs := cq.2, npr := lq.2, apptDateVar := some apptDate,
     appts := st.appts ++ [a], nextId := st.nextId + 1,
     created := st.created + 1 })

/-- Create one appointment for the given patient: the body of the inner
for loop of generate_appointments, after the count guard.  none models an
IndexError from random.choice on an empty provider or department pool. -/
def innerStep (ctx : GenCtx) (patient : Patient) (journey : String)
    (payer : Option PayerGrouping) (lastApptDate : Option ℤ) (apptNum : ℕ)
    (c : InnerCarry) (st : SimSt) : Option (InnerCarry × SimSt) :=
  let sq := pickSpecialty journey apptNum st.rs
  let specialty := sq.1
  let availP0 := providersBySpecialty ctx.providers specialty
  let availP := if availP0.isEmpty then ctx.providers else availP0
  let pq := choice availP sq.2
  match pq.1 with
  | none => none
  | some provider =>
    let availD0 := departmentsBySpecialty ctx.departments specialty
    let availD := if availD0.isEmpty then ctx.departments else availD0
    let dq := choice availD pq.2
    match dq.1 with
    | none => none
    | some department =>
      match pickDate journey apptNum lastApptDate st.apptDateVar ctx.startDate
          ctx.endDate dq.2 with
      | none => none
      | some (apptDate, r1) =>
        some (buildAppointment ctx patient journey payer apptNum c st specialty
          provider department apptDate r1)

/-- Inner for loop over the appointment quota of one patient in one pass,
with the per-appointment count guard. -/
def innerLoop (ctx : GenCtx) (patient : Patient) (journey : String)
    (payer : Option PayerGrouping) (lastApptDate : Option ℤ) :
    ℕ → ℕ → InnerCarry → SimSt → Option (InnerCarry × SimSt)
  | 0, _, c, st => some (c, st)
  | n + 1, apptNum, c, st =>
    if (st.created : ℤ) ≥ ctx.count then some (c, st)
    else
      match innerStep ctx patient journey payer lastApptDate apptNum c st with
      | none => none
      | some (c', st') =>
        innerLoop ctx patient journey payer lastApptDate n (apptNum + 1) c' st'

/-- Handle one patient in one pass: draw the quota (scaled by the pass
multiplier), run the inner loop, then write the running statistics back. -/
def processPatient (ctx : GenCtx) (passNumber : ℕ) (patient : Patient)
    (st : SimSt) : Option SimSt :=
  let journey := ctx.journeys patient.patientid
  let payer : Option PayerGrouping :=
    match ctx.insuranceByPatient patient.patientid with
    | some ins => ins.sipg2
    | none => some PayerGrouping.SELF_PAY
  let base_multiplier : ℚ := 1 + ((passNumber : ℚ) - 1) * 0.5
  let bq :=
    (if journey = "routine_care" then randint 2 6
     else if journey = "chronic_management" then randint 6 24
     else if journey = "episodic" then randint 1 4
     else if journey = "referral_chain" then randint 3 8
     else randint 3 6) st.rs
  let num_appointments : ℕ := (Rat.floor ((bq.1 : ℚ) * base_multiplier)).toNat
  let stp := st.stats patient.patientid
  match innerLoop ctx patient journey payer stp.last_appt_date num_appointments 0
      ⟨stp.no_shows, stp.total, none⟩ { st with rs := bq.2 } with
  | none => none
  | some (c, st') =>
    some { st' with
      stats := fun pid =>
        if pid = patient.patientid then ⟨c.noShows, c.total, st'.apptDateVar⟩
        else st'.stats pid }

/-- One pass over the shuffled patient list, with the per-patient break. -/
def passLoop (ctx : GenCtx) (passNumber : ℕ) :
    List Patient → SimSt → Option SimSt
  | [], st => some st
  | p :: rest, st =>
    if (st.created : ℤ) ≥ ctx.count then some st
    else
      match processPatient ctx passNumber p st with
      | none => none
      | some st' => passLoop ctx passNumber rest st'

/-- Outer while loop: keep making passes until the target count is
reached; fuel bounds the number of passes, none meaning the loop is
still running when the fuel runs out. -/
def whileLoop (ctx : GenCtx) : ℕ → ℕ → SimSt → Option SimSt
  | 0, _, _ => none
  | fuel + 1, passNumber, st =>
    if (st.created : ℤ) < ctx.count then
      let sq := sample ctx.patients st.rs
      match passLoop ctx (passNumber + 1) sq.1 { st with rs := sq.2 } with
      | none => none
      | some st' => whileLoop ctx fuel (passNumber + 1) st'
    else some st

/-- Generate synthetic appointments with patient journey patterns; also
returns the patient list after the final statistics backfill.  rs and npr
are the seeded random-module and numpy streams, hashFn the process string
hash, fuel the pass bound. -/
def generate_appointments (patients : List Patient) (providers : List Provider)
    (departments : List Department) (insurance_records : List Insurance)
    (count : ℤ) (start_dateQ end_dateQ : Option ℤ) (today now : ℤ)
    (hashFn : String → ℤ) (fuel : ℕ) (rs npr : RS) :
    Option (List Appointment × List Patient) :=
  let end_date := end_dateQ.getD (today + 42)
  let start_date := start_dateQ.getD (end_date - 730)
  let insuranceBy : ℤ → Option Insurance :=
    insurance_records.foldl
      (fun m ins => fun pid => if pid = ins.patientid then some ins else m pid)
      (fun _ => none)
  let jq := patients.foldl
    (fun (acc : (ℤ → String) × RS) p =>
      let w := wchoiceD JOURNEY_TYPE_WEIGHTS "routine_care" acc.2
      (fun pid => if pid = p.patientid then w.1 else acc.1 pid, w.2))
    (fun _ => "routine_care", rs)
  let ctx : GenCtx := {
    patients := patients, providers := providers, departments := departments,
    journeys := jq.1, insuranceByPatient := insuranceBy, count := count,
    startDate := start_date, endDate := end_date, today := today, now := now,
    hashFn := hashFn }
  let st0 : SimSt := {
    rs := jq.2, npr := npr, stats := fun _ => ⟨0, 0, none⟩,
    apptDateVar := none, appts := [], nextId := 1, created := 0 }
  match whileLoop ctx fuel 0 st0 with
  | none => none
  | some st => some (st.appts, _update_patient_statistics patients st.appts today now)

/-! Algebraic view of the probability model. -/

/-- Clamp of a raw probability to the interval [0.03, 0.85]. -/
def clampProb (x : ℚ) : ℚ := max 0.03 (min 0.85 x)

/-- Lead-time band delta. -/
def leadTimeAdj (lead_time_days : ℤ) : ℚ :=
  if lead_time_days ≤ 0 then -0.12
  else if lead_time_days ≤ 3 then -0.06
  else if lead_time_days ≤ 7 then 0.04
  else if lead_time_days ≤ 14 then 0.10
  else if lead_time_days ≤ 30 then 0.14
  else 0.16

/-- Age-bucket delta. -/
def ageAdj (b : AgeBucket) : ℚ :=
  if b = AgeBucket.PEDIATRIC then 0.03
  else if b = AgeBucket.YOUNG_ADULT then 0.04
  else if b = AgeBucket.MIDDLE_AGED then -0.02
  else if b = AgeBucket.SENIOR then -0.05
  else 0

/-- History contribution: capped at 0.20, zero without prior no-shows. -/
def historyAdj (count : ℕ) (rate : ℚ) : ℚ :=
  if count > 0 then min 0.20 (rate * 0.5) else 0

/-- Payer-group delta. -/
def payerAdj (payer_group : Option PayerGrouping) : ℚ :=
  if payer_group = some PayerGrouping.MEDICAID then 0.06
  else if payer_group = some PayerGrouping.SELF_PAY then 0.08
  else if payer_group = some PayerGrouping.MEDICARE then -0.03
  else 0

/-- Day-of-week delta (Monday = 0, Friday = 4). -/
def dowAdj (day_of_week : ℤ) : ℚ :=
  if day_of_week = 0 then 0.03 else if day_of_week = 4 then 0.02 else 0

/-- Hour-of-day delta. -/
def hourAdj (hour_of_day : ℤ) : ℚ :=
  if 14 ≤ hour_of_day ∧ hour_of_day ≤ 16 then 0.02
  else if 7 ≤ hour_of_day ∧ hour_of_day ≤ 9 then -0.03
  else 0

/-- New-patient delta. -/
def newPatientAdj (f : NewPatientFlag) : ℚ :=
  if f = NewPatientFlag.NEW_PATIENT then 0.04 else 0

/-- Virtual-modality delta. -/
def virtualAdj (v : VirtualFlag) : ℚ :=
  if v = VirtualFlag.VIRTUAL_VIDEO then -0.05
  else if v = VirtualFlag.VIRTUAL_TELEPHONE then -0.03
  else 0

/-- Portal-disengagement delta. -/
def portalAdj (p : Patient) (now : ℤ) : ℚ :=
  if ¬ p.portal_engaged now then 0.03 else 0

/-- Web-scheduled delta. -/
def webAdj (web_scheduled : Bool) : ℚ := if web_scheduled then -0.02 else 0

/-- Journey-escalation delta. -/
def journeyAdj (journey_stage : String) : ℚ :=
  if journey_stage = "care_abandonment_escalating" then 0.20 else 0

/-- The twelve independent additive adjustments of the model, in source
order. -/
def noShowAdjustments (patient : Patient) (appointment_date : ℤ)
    (lead_time_days : ℤ) (hour_of_day : ℤ) (day_of_week : ℤ)
    (virtual_flag : VirtualFlag) (new_patient_flag : NewPatientFlag)
    (payer_group : Option PayerGrouping) (web_scheduled : Bool)
    (journey_stage : String) (now : ℤ) : List ℚ :=
  [leadTimeAdj lead_time_days,
   ageAdj patient.patient_age_bucket,
   historyAdj patient.historical_no_show_count patient.historical_no_show_rate,
   payerAdj payer_group,
   dowAdj day_of_week,
   hourAdj hour_of_day,
   newPatientAdj new_patient_flag,
   virtualAdj virtual_flag,
   portalAdj patient now,
   webAdj web_scheduled,
   _get_seasonality_modifier appointment_date,
   journeyAdj journey_stage]

theorem calcProb_eq_clamp_sum (patient : Patient) (appointment_date : ℤ)
    (lead_time_days : ℤ) (hour_of_day : ℤ) (day_of_week : ℤ)
    (virtual_flag : VirtualFlag) (new_patient_flag : NewPatientFlag)
    (payer_group : Option PayerGrouping) (web_scheduled : Bool)
    (journey_stage : String) (now : ℤ) :
    calculate_no_show_probability patient appointment_date lead_time_days
      hour_of_day day_of_week virtual_flag new_patient_flag payer_group
      web_scheduled journey_stage now
    = clampProb (BASE_NO_SHOW_RATE +
      (noShowAdjustments patient appointment_date lead_time_days hour_of_day
        day_of_week virtual_flag new_patient_flag payer_group web_scheduled
        journey_stage now).sum) := by
  simp only [calculate_no_show_probability, noShowAdjustments, clampProb,
    leadTimeAdj, ageAdj, historyAdj, payerAdj, dowAdj, hourAdj, newPatientAdj,
    virtualAdj, portalAdj, webAdj, journeyAdj, List.sum_cons, List.sum_nil]
  ring_nf

theorem clampProb_mono {x y : ℚ} (h : x ≤ y) : clampProb x ≤ clampProb y :=
  max_le_max le_rfl (min_le_min le_rfl h)

theorem clampProb_mem (x : ℚ) : 0.03 ≤ clampProb x ∧ clampProb x ≤ 0.85 := by
  constructor
  · exact le_max_left _ _
  · exact max_le (by norm_num) (min_le_left _ _)

theorem leadTimeAdj_mono {l1 l2 : ℤ} (h : l1 ≤ l2) :
    leadTimeAdj l1 ≤ leadTimeAdj l2 := by
  unfold leadTimeAdj
  split_ifs <;> (try norm_num) <;> omega

theorem leadTimeAdj_bounds (l : ℤ) :
    (-0.12 : ℚ) ≤ leadTimeAdj l ∧ leadTimeAdj l ≤ 0.16 := by
  unfold leadTimeAdj
  split_ifs <;> norm_num

/-! Concrete fixtures used by witnesses and counterexamples. -/

/-- A patient with defaulted optional fields. -/
def wPatient : Patient := {
  patientid := 1, enterpriseid := 1000001,
  patient_gender := Gender.FEMALE, patient_age_bucket := AgeBucket.MIDDLE_AGED }

/-- A family-medicine provider. -/
def wProvider : Provider := {
  providerid := 1, providerfirstname := "Ada",
  providerlastname := "Lee", providertype := ProviderType.PHYSICIAN,
  provider_specialty := "Family Medicine" }

/-- A department without a specialty. -/
def wDepartment : Department := { departmentid := 1, departmentname := "Main" }

/-- An insurance record for wPatient. -/
def wInsurance : Insurance := {
  primarypatientinsuranceid := 1, patientid := 1,
  sipg2 := some PayerGrouping.COMMERCIAL }

/-- The all-zero raw stream. -/
def rsZero : RS := ⟨fun _ => 0, 0⟩

/-- A raw stream forcing a late first appointment and a wrap-around
second appointment date in the two-appointment run used below. -/
def rsWrap : RS := ⟨fun n => if n = 6 then 650 else if n = 18 then 93 else 0, 0⟩

/-- A trivial Faker email source. -/
def email0 : ℕ → String := fun _ => "user"

/-- C1: for every patient and argument tuple, the probability is the
clamp to [0.03, 0.85] of the base constant plus the sum of the twelve
independent additive adjustments; the result always lies in [0.03, 0.85]
and any permutation of the adjustment list yields the same result. -/
theorem C1_additive_probability_model (patient : Patient)
    (appointment_date lead_time_days hour_of_day day_of_week : ℤ)
    (virtual_flag : VirtualFlag) (new_patient_flag : NewPatientFlag)
    (payer_group : Option PayerGrouping) (web_scheduled : Bool)
    (journey_stage : String) (now : ℤ) :
    calculate_no_show_probability patient appointment_date lead_time_days
      hour_of_day day_of_week virtual_flag new_patient_flag payer_group
      web_scheduled journey_stage now
      = clampProb (BASE_NO_SHOW_RATE +
          (noShowAdjustments patient appointment_date lead_time_days hour_of_day
            day_of_week virtual_flag new_patient_flag payer_group web_scheduled
            journey_stage now).sum)
    ∧ 0.03 ≤ calculate_no_show_probability patient appointment_date
        lead_time_days hour_of_day day_of_week virtual_flag new_patient_flag
        payer_group web_scheduled journey_stage now
    ∧ calculate_no_show_probability patient appointment_date lead_time_days
        hour_of_day day_of_week virtual_flag new_patient_flag payer_group
        web_scheduled journey_stage now ≤ 0.85
    ∧ ∀ l : List ℚ,
        l.Perm (noShowAdjustments patient appointment_date lead_time_days
          hour_of_day day_of_week virtual_flag new_patient_flag payer_group
          web_scheduled journey_stage now) →
        clampProb (BASE_NO_SHOW_RATE + l.sum)
          = calculate_no_show_probability patient appointment_date
              lead_time_days hour_of_day day_of_week virtual_flag
              new_patient_flag payer_group web_scheduled journey_stage now := by
  rw [calcProb_eq_clamp_sum]
  refine ⟨rfl, (clampProb_mem _).1, (clampProb_mem _).2, ?_⟩
  intro l hl
  rw [hl.sum_eq]

/-- Witness for C1 at a concrete argument tuple, with the permutation
hypothesis discharged by reflexivity of permutation. -/
theorem C1_additive_probability_model_witness :
    (0.03 : ℚ) ≤ calculate_no_show_probability wPatient 20082 10 9 1
        VirtualFlag.NON_VIRTUAL NewPatientFlag.ESTABLISHED
        (some PayerGrouping.COMMERCIAL) false "normal" 0
    ∧ calculate_no_show_probability wPatient 20082 10 9 1
        VirtualFlag.NON_VIRTUAL NewPatientFlag.ESTABLISHED
        (some PayerGrouping.COMMERCIAL) false "normal" 0 ≤ 0.85
    ∧ clampProb (BASE_NO_SHOW_RATE +
        (noShowAdjustments wPatient 20082 10 9 1 VirtualFlag.NON_VIRTUAL
          NewPatientFlag.ESTABLISHED (some PayerGrouping.COMMERCIAL) false
          "normal" 0).sum)
      = calculate_no_show_probability wPatient 20082 10 9 1
          VirtualFlag.NON_VIRTUAL NewPatientFlag.ESTABLISHED
          (some PayerGrouping.COMMERCIAL) false "normal" 0 :=
  ⟨(C1_additive_probability_model wPatient 20082 10 9 1 VirtualFlag.NON_VIRTUAL
      NewPatientFlag.ESTABLISHED (some PayerGrouping.COMMERCIAL) false
      "normal" 0).2.1,
   (C1_additive_probability_model wPatient 20082 10 9 1 VirtualFlag.NON_VIRTUAL
      NewPatientFlag.ESTABLISHED (some PayerGrouping.COMMERCIAL) false
      "normal" 0).2.2.1,
   (C1_additive_probability_model wPatient 20082 10 9 1 VirtualFlag.NON_VIRTUAL
      NewPatientFlag.ESTABLISHED (some PayerGrouping.COMMERCIAL) false
      "normal" 0).2.2.2 _ (List.Perm.refl _)⟩

/-- C6: holding the patient and every other argument fixed, the
probability is monotone non-decreasing in lead time, and the lead-time
deltas are bounded by -0.12 and 0.16. -/
theorem C6_monotone_in_lead_time (patient : Patient)
    (appointment_date hour_of_day day_of_week : ℤ)
    (virtual_flag : VirtualFlag) (new_patient_flag : NewPatientFlag)
    (payer_group : Option PayerGrouping) (web_scheduled : Bool)
    (journey_stage : String) (now : ℤ) (lead1 lead2 : ℤ) (h : lead1 ≤ lead2) :
    calculate_no_show_probability patient appointment_date lead1 hour_of_day
      day_of_week virtual_flag new_patient_flag payer_group web_scheduled
      journey_stage now
    ≤ calculate_no_show_probability patient appointment_date lead2 hour_of_day
        day_of_week virtual_flag new_patient_flag payer_group web_scheduled
        journey_stage now
    ∧ leadTimeAdj lead1 ≤ leadTimeAdj lead2
    ∧ (-0.12 : ℚ) ≤ leadTimeAdj lead1 ∧ leadTimeAdj lead2 ≤ 0.16 := by
  refine ⟨?_, leadTimeAdj_mono h, (leadTimeAdj_bounds lead1).1,
    (leadTimeAdj_bounds lead2).2⟩
  rw [calcProb_eq_clamp_sum, calcProb_eq_clamp_sum]
  apply clampProb_mono
  simp only [noShowAdjustments, List.sum_cons]
  have hm := leadTimeAdj_mono h
  linarith

/-- Witness for C6 at a concrete argument tuple and lead-time pair. -/
theorem C6_monotone_in_lead_time_witness :
    calculate_no_show_probability wPatient 20082 2 9 1 VirtualFlag.NON_VIRTUAL
      NewPatientFlag.ESTABLISHED (some PayerGrouping.COMMERCIAL) false
      "normal" 0
    ≤ calculate_no_show_probability wPatient 20082 40 9 1
        VirtualFlag.NON_VIRTUAL NewPatientFlag.ESTABLISHED
        (some PayerGrouping.COMMERCIAL) false "normal" 0 :=
  (C6_monotone_in_lead_time wPatient 20082 9 1 VirtualFlag.NON_VIRTUAL
    NewPatientFlag.ESTABLISHED (some PayerGrouping.COMMERCIAL) false "normal" 0
    2 40 (by norm_num)).1

/-- C4: the derived no_show property holds exactly for an explicit
No Show status or a past Scheduled appointment without a check-in, and is
false for Complete appointments. -/
theorem C4_no_show_derivation (a : Appointment) (now : ℤ) :
    (a.no_show now = true ↔
      (a.appointmentstatus = AppointmentStatus.NO_SHOW ∨
       (a.is_past now = true ∧ a.appointmentstatus = AppointmentStatus.SCHEDULED
        ∧ a.appointmentcheckindatetime = none)))
    ∧ (a.appointmentstatus = AppointmentStatus.COMPLETE →
        a.no_show now = false) := by
  constructor
  · unfold Appointment.no_show
    split_ifs with h1 h2 <;> simp_all
  · intro hc
    unfold Appointment.no_show
    split_ifs with h1 h2 <;> simp_all

/-- Witness for C4 at a concrete past scheduled appointment. -/
theorem C4_no_show_derivation_witness :
    let a : Appointment := {
      appointmentid := 1, patientid := 1, providerid := 1, departmentid := 1,
      appointmentdate := -10, appointmentstarttime := (9, 0),
      appointmentduration := 30, appointmenttypeid := 0,
      appointmenttypename := "Sick Visit",
      appointmentstatus := AppointmentStatus.SCHEDULED,
      appointmentcreateddatetime := -20000,
      appointmentscheduleddatetime := -20000 }
    (a.no_show 0 = true ↔
      (a.appointmentstatus = AppointmentStatus.NO_SHOW ∨
       (a.is_past 0 = true ∧ a.appointmentstatus = AppointmentStatus.SCHEDULED
        ∧ a.appointmentcheckindatetime = none)))
    ∧ (a.appointmentstatus = AppointmentStatus.COMPLETE →
        a.no_show 0 = false) :=
  C4_no_show_derivation _ 0

/-- First-match reading of the seasonality table as the specification
describes it: the four windows checked in order (holiday season Dec 20 to
Jan 5, summer vacation Jul 1 to Aug 15, back-to-school Aug 15 to 31, tax
season Apr 1 to 15); the year-wrap window matches via an OR of after-start
and before-end; no match gives 0. -/
def seasonalitySpec (m d : ℤ) : ℚ :=
  if (m ≥ 12 ∧ d ≥ 20) ∨ (m ≤ 1 ∧ d ≤ 5) then 0.15
  else if (m = 7 ∧ d ≥ 1) ∨ (m = 8 ∧ d ≤ 15) then 0.08
  else if m = 8 ∧ 15 ≤ d ∧ d ≤ 31 then 0.05
  else if m = 4 ∧ 1 ≤ d ∧ d ≤ 15 then 0.03
  else 0

/-- C5: for every date the seasonality modifier equals the first-match
evaluation of the four windows on the month and day of the date, with OR
semantics for the year-wrap window and 0 when nothing matches. -/
theorem C5_seasonality_first_match (z : ℤ) :
    _get_seasonality_modifier z
      = seasonalitySpec (civilMonthDay z).1 (civilMonthDay z).2 := by
  unfold _get_seasonality_modifier seasonalitySpec
  generalize (civilMonthDay z).1 = m
  generalize (civilMonthDay z).2 = d
  simp only [SEASONALITY_MODIFIERS, seasonLoop]
  norm_num
  split_ifs <;> (try rfl) <;> omega

/-- C9: generate_insurance returns exactly one record per patient, in
order, whose primary key and foreign key both equal that patient id; the
counts agree and distinct patient ids give distinct insurance links. -/
theorem C9_insurance_one_to_one (patients : List Patient) (r : RS) :
    ((generate_insurance patients r).1.map
        (fun i => (i.primarypatientinsuranceid, i.patientid)))
      = patients.map (fun p => (p.patientid, p.patientid))
    ∧ (generate_insurance patients r).1.length = patients.length
    ∧ ((generate_insurance patients r).1.map (fun i => i.patientid))
      = patients.map (fun p => p.patientid)
    ∧ ((patients.map (fun p => p.patientid)).Nodup →
        ((generate_insurance patients r).1.map (fun i => i.patientid)).Nodup) := by
  induction patients generalizing r with
  | nil => simp [generate_insurance]
  | cons p rest ih =>
    simp only [generate_insurance, List.map_cons, List.length_cons,
      List.nodup_cons]
    refine ⟨?_, ?_, ?_, ?_⟩
    · rw [(ih _).1]
    · rw [(ih _).2.1]
    · rw [(ih _).2.2.1]
    · intro hnd
      rw [(ih _).2.2.1]
      exact hnd

/-- Witness for C9 on a concrete patient list, with the distinctness
hypothesis discharged by evaluation. -/
theorem C9_insurance_one_to_one_witness :
    ((generate_insurance [wPatient] rsZero).1.map
        (fun i => (i.primarypatientinsuranceid, i.patientid)))
      = [wPatient].map (fun p => (p.patientid, p.patientid))
    ∧ (generate_insurance [wPatient] rsZero).1.length = 1
    ∧ (((generate_insurance [wPatient] rsZero).1.map (fun i => i.patientid)).Nodup) :=
  ⟨(C9_insurance_one_to_one [wPatient] rsZero).1,
   (C9_insurance_one_to_one [wPatient] rsZero).2.1,
   (C9_insurance_one_to_one [wPatient] rsZero).2.2.2 (by decide)⟩

/-! Counting helpers over appointment lists. -/

/-- Number of past appointments of a patient in a list. -/
def pastTotalOf (today pid : ℤ) (l : List Appointment) : ℕ :=
  l.countP (fun a => decide (a.appointmentdate ≤ today ∧ a.patientid = pid))

/-- Number of past no_show appointments of a patient in a list, using the
derived no_show property evaluated at the given clock. -/
def pastNoShowOf (today now pid : ℤ) (l : List Appointment) : ℕ :=
  l.countP (fun a =>
    decide (a.appointmentdate ≤ today ∧ a.patientid = pid ∧ a.no_show now = true))

theorem statsFold_gen (today now : ℤ) (l : List Appointment) (m : ℤ → ℕ × ℕ)
    (pid : ℤ) :
    (l.foldl (statsStep today now) m) pid
      = ((m pid).1 + pastTotalOf today pid l,
         (m pid).2 + pastNoShowOf today now pid l) := by
  induction l generalizing m with
  | nil => simp [pastTotalOf, pastNoShowOf]
  | cons a l ih =>
    simp only [List.foldl_cons, ih, pastTotalOf, pastNoShowOf, List.countP_cons]
    unfold statsStep
    by_cases hd : a.appointmentdate ≤ today
    · by_cases hp : pid = a.patientid
      · subst hp
        by_cases hn : a.no_show now
        · simp [hd, hn]
          try omega
        · simp [hd, hn]
          try omega
      · simp [hd, hp, Ne.symm hp]
        try omega
    · simp [hd]
      try omega

theorem statsFold_apply (today now : ℤ) (l : List Appointment) (pid : ℤ) :
    statsFold today now l pid
      = (pastTotalOf today pid l, pastNoShowOf today now pid l) := by
  unfold statsFold
  rw [statsFold_gen]
  simp

/-- C10: the statistics backfill is total and division-safe: the rate
denominator max 1 total is positive, no-show counts never exceed totals,
and every patient with zero past appointments ends the backfill with a
zero count and a zero rate; the updated fields are exactly the past
counters of that patient over the whole appointment list. -/
theorem C10_backfill_division_safe (patients : List Patient)
    (appointments : List Appointment) (today now : ℤ) :
    _update_patient_statistics patients appointments today now
      = patients.map (fun p =>
          { p with
            historical_no_show_count := pastNoShowOf today now p.patientid appointments,
            historical_no_show_rate :=
              (pastNoShowOf today now p.patientid appointments : ℚ) /
                ((max 1 (pastTotalOf today p.patientid appointments) : ℕ) : ℚ) })
    ∧ (∀ pid : ℤ, (0 : ℚ) < ((max 1 (pastTotalOf today pid appointments) : ℕ) : ℚ))
    ∧ (∀ pid : ℤ, pastTotalOf today pid appointments = 0 →
        pastNoShowOf today now pid appointments = 0)
    ∧ (∀ p ∈ _update_patient_statistics patients appointments today now,
        pastTotalOf today p.patientid appointments = 0 →
        p.historical_no_show_count = 0 ∧ p.historical_no_show_rate = 0) := by
  have hmain : _update_patient_statistics patients appointments today now
      = patients.map (fun p =>
          { p with
            historical_no_show_count := pastNoShowOf today now p.patientid appointments,
            historical_no_show_rate :=
              (pastNoShowOf today now p.patientid appointments : ℚ) /
                ((max 1 (pastTotalOf today p.patientid appointments) : ℕ) : ℚ) }) := by
    unfold _update_patient_statistics
    simp [statsFold_apply]
  have hmono : ∀ pid : ℤ, pastNoShowOf today now pid appointments
      ≤ pastTotalOf today pid appointments := by
    intro pid
    apply List.countP_mono_left
    intro a _ h
    simp only [decide_eq_true_eq] at h ⊢
    exact ⟨h.1, h.2.1⟩
  refine ⟨hmain, ?_, ?_, ?_⟩
  · intro pid
    have : (0 : ℕ) < max 1 (pastTotalOf today pid appointments) := by omega
    exact_mod_cast this
  · intro pid h0
    have := hmono pid
    omega
  · intro p hp h0
    rw [hmain] at hp
    obtain ⟨q, hq, rfl⟩ := List.mem_map.mp hp
    simp only at h0 ⊢
    have hns : pastNoShowOf today now q.patientid appointments = 0 := by
      have := hmono q.patientid
      omega
    refine ⟨hns, ?_⟩
    rw [hns, h0]
    norm_num

/-- Witness for C10 on a concrete patient and appointment pair, with the
membership and zero-past hypotheses discharged by evaluation. -/
theorem C10_backfill_division_safe_witness :
    (∀ p ∈ _update_patient_statistics [wPatient] [] 0 0,
        pastTotalOf 0 p.patientid [] = 0 →
        p.historical_no_show_count = 0 ∧ p.historical_no_show_rate = 0)
    ∧ (0 : ℚ) < ((max 1 (pastTotalOf 0 1 ([] : List Appointment)) : ℕ) : ℚ) :=
  ⟨(C10_backfill_division_safe [wPatient] [] 0 0).2.2.2,
   (C10_backfill_division_safe [wPatient] [] 0 0).2.1 1⟩

/-! Characterization of one inner-loop step. -/

theorem buildAppointment_spec (ctx : GenCtx) (patient : Patient)
    (journey : String) (payer : Option PayerGrouping) (apptNum : ℕ)
    (c : InnerCarry) (st : SimSt) (specialty : String) (provider : Provider)
    (department : Department) (apptDate : ℤ) (r1 : RS) :
    ∃ a : Appointment,
      (buildAppointment ctx patient journey payer apptNum c st specialty
          provider department apptDate r1).2.appts = st.appts ++ [a]
      ∧ (buildAppointment ctx patient journey payer apptNum c st specialty
          provider department apptDate r1).2.created = st.created + 1
      ∧ (buildAppointment ctx patient journey payer apptNum c st specialty
          provider department apptDate r1).2.stats = st.stats
      ∧ a.patientid = patient.patientid
      ∧ a.appointmentdate = apptDate
      ∧ a.suppliedHistCount = c.noShows
      ∧ a.suppliedHistRate = (c.noShows : ℚ) / ((max 1 c.total : ℕ) : ℚ)
      ∧ (buildAppointment ctx patient journey payer apptNum c st specialty
          provider department apptDate r1).1.noShows = c.noShows +
          (if a.appointmentdate ≤ ctx.today ∧
              a.appointmentstatus = AppointmentStatus.NO_SHOW then 1 else 0)
      ∧ (buildAppointment ctx patient journey payer apptNum c st specialty
          provider department apptDate r1).1.total = c.total +
          (if a.appointmentdate ≤ ctx.today then 1 else 0) := by
  unfold buildAppointment
  by_cases hf : apptDate > ctx.today
  · have hd : decide (apptDate > ctx.today) = true := by simpa using hf
    refine ⟨_, rfl, rfl, rfl, rfl, rfl, rfl, rfl, ?_, ?_⟩
    · simp only [hd, drawOutcome_future, Bool.not_true]
      have : ¬ apptDate ≤ ctx.today := by omega
      simp [this]
    · simp only [hd, Bool.not_true]
      have : ¬ apptDate ≤ ctx.today := by omega
      simp [this]
  · have hd : decide (apptDate > ctx.today) = false := by simpa using hf
    have hle : apptDate ≤ ctx.today := by omega
    refine ⟨_, rfl, rfl, rfl, rfl, rfl, rfl, rfl, ?_, ?_⟩
    · simp only [hd, Bool.not_false, if_true, hle, true_and,
        drawOutcome_noshow_iff]
      split_ifs <;> omega
    · simp [hd, hle]

theorem innerStep_spec {ctx : GenCtx} {patient : Patient} {journey : String}
    {payer : Option PayerGrouping} {lastApptDate : Option ℤ} {apptNum : ℕ}
    {c : InnerCarry} {st : SimSt} {c' : InnerCarry} {st' : SimSt}
    (h : innerStep ctx patient journey payer lastApptDate apptNum c st
      = some (c', st')) :
    ∃ a : Appointment,
      st'.appts = st.appts ++ [a]
      ∧ st'.created = st.created + 1
      ∧ st'.stats = st.stats
      ∧ a.patientid = patient.patientid
      ∧ a.suppliedHistCount = c.noShows
      ∧ a.suppliedHistRate = (c.noShows : ℚ) / ((max 1 c.total : ℕ) : ℚ)
      ∧ c'.noShows = c.noShows +
          (if a.appointmentdate ≤ ctx.today ∧
              a.appointmentstatus = AppointmentStatus.NO_SHOW then 1 else 0)
      ∧ c'.total = c.total +
          (if a.appointmentdate ≤ ctx.today then 1 else 0) := by
  simp only [innerStep] at h
  split at h
  · exact Option.noConfusion h
  · rename_i provider hprov
    split at h
    · exact Option.noConfusion h
    · rename_i department hdept
      split at h
      · exact Option.noConfusion h
      · rename_i apptDate r1 hdate
        injection h with h2
        obtain ⟨a, ha1, ha2, ha3, ha4, ha5, ha6, ha7, ha8, ha9⟩ :=
          buildAppointment_spec ctx patient journey payer apptNum c st
            (pickSpecialty journey apptNum st.rs).1 provider department
            apptDate r1
        rw [h2] at ha1 ha2 ha3 ha8 ha9
        exact ⟨a, ha1, ha2, ha3, ha4, ha6, ha7, ha8, ha9⟩

/-! Provenance counters for the generation loop: they count by explicit
No Show status, as the incremental tracking in generate_appointments
does. -/

/-- Number of past appointments of a patient, by appointment date. -/
def genPastTotal (today pid : ℤ) (l : List Appointment) : ℕ :=
  l.countP (fun b => decide (b.patientid = pid ∧ b.appointmentdate ≤ today))

/-- Number of past appointments of a patient with No Show status. -/
def genPastNoShows (today pid : ℤ) (l : List Appointment) : ℕ :=
  l.countP (fun b => decide (b.patientid = pid ∧ b.appointmentdate ≤ today
    ∧ b.appointmentstatus = AppointmentStatus.NO_SHOW))

/-- Each appointment in the list was supplied exactly the history
statistics of its patient over the strictly earlier part of the list
(generation order): count of past No Show appointments, and that count
over max 1 the past total. -/
def suppliedOK (today : ℤ) (l : List Appointment) : Prop :=
  ∀ i a, l.get? i = some a →
    a.suppliedHistCount = genPastNoShows today a.patientid (l.take i)
    ∧ a.suppliedHistRate = (genPastNoShows today a.patientid (l.take i) : ℚ) /
        ((max 1 (genPastTotal today a.patientid (l.take i)) : ℕ) : ℚ)

theorem suppliedOK_nil (today : ℤ) : suppliedOK today [] := by
  intro i a ha
  simp at ha

theorem genPastTotal_append (today pid : ℤ) (l1 l2 : List Appointment) :
    genPastTotal today pid (l1 ++ l2)
      = genPastTotal today pid l1 + genPastTotal today pid l2 := by
  unfold genPastTotal
  exact List.countP_append _ _ _

theorem genPastNoShows_append (today pid : ℤ) (l1 l2 : List Appointment) :
    genPastNoShows today pid (l1 ++ l2)
      = genPastNoShows today pid l1 + genPastNoShows today pid l2 := by
  unfold genPastNoShows
  exact List.countP_append _ _ _

theorem genPastTotal_singleton (today pid : ℤ) (a : Appointment)
    (hpid : a.patientid = pid) :
    genPastTotal today pid [a] = if a.appointmentdate ≤ today then 1 else 0 := by
  unfold genPastTotal
  simp [List.countP_cons, hpid]

theorem genPastNoShows_singleton (today pid : ℤ) (a : Appointment)
    (hpid : a.patientid = pid) :
    genPastNoShows today pid [a]
      = if a.appointmentdate ≤ today
          ∧ a.appointmentstatus = AppointmentStatus.NO_SHOW then 1 else 0 := by
  unfold genPastNoShows
  simp [List.countP_cons, hpid]

theorem suppliedOK_append (today : ℤ) (l : List Appointment) (a : Appointment)
    (h : suppliedOK today l)
    (hc : a.suppliedHistCount = genPastNoShows today a.patientid l)
    (hr : a.suppliedHistRate = (genPastNoShows today a.patientid l : ℚ) /
        ((max 1 (genPastTotal today a.patientid l) : ℕ) : ℚ)) :
    suppliedOK today (l ++ [a]) := by
  intro i b hb
  by_cases hi : i < l.length
  · rw [List.get?_append hi] at hb
    rw [List.take_append_of_le_length (le_of_lt hi)]
    exact h i b hb
  · push_neg at hi
    rw [List.get?_append_right hi] at hb
    rcases Nat.lt_or_ge (i - l.length) 1 with h1 | h1
    · have hi0 : i - l.length = 0 := by omega
      rw [hi0] at hb
      simp at hb
      subst hb
      have hieq : i = l.length := by omega
      rw [hieq, List.take_left]
      exact ⟨hc, hr⟩
    · rw [List.get?_eq_none.mpr (by simpa using h1)] at hb
      exact Option.noConfusion hb

theorem innerLoop_spec (ctx : GenCtx) (patient : Patient) (journey : String)
    (payer : Option PayerGrouping) (lastApptDate : Option ℤ) :
    ∀ (n apptNum : ℕ) (c : InnerCarry) (st : SimSt) (c' : InnerCarry)
      (st' : SimSt),
    innerLoop ctx patient journey payer lastApptDate n apptNum c st
      = some (c', st') →
    ∃ tail : List Appointment,
      st'.appts = st.appts ++ tail
      ∧ (∀ b ∈ tail, b.patientid = patient.patientid)
      ∧ st'.created = st.created + tail.length
      ∧ st'.stats = st.stats
      ∧ st'.created ≤ max st.created ctx.count.toNat
      ∧ (c.noShows = genPastNoShows ctx.today patient.patientid st.appts →
         c.total = genPastTotal ctx.today patient.patientid st.appts →
         suppliedOK ctx.today st.appts →
         (c'.noShows = genPastNoShows ctx.today patient.patientid st'.appts
          ∧ c'.total = genPastTotal ctx.today patient.patientid st'.appts
          ∧ suppliedOK ctx.today st'.appts)) := by
  intro n
  induction n with
  | zero =>
    intro apptNum c st c' st' h
    simp only [innerLoop] at h
    injection h with h
    injection h with h1 h2
    subst h1
    subst h2
    exact ⟨[], by simp, by simp, by simp, rfl, le_max_left _ _,
      fun h1 h2 h3 => ⟨h1, h2, h3⟩⟩
  | succ n ih =>
    intro apptNum c st c' st' h
    simp only [innerLoop] at h
    split at h
    · injection h with h
      injection h with h1 h2
      subst h1
      subst h2
      exact ⟨[], by simp, by simp, by simp, rfl, le_max_left _ _,
        fun h1 h2 h3 => ⟨h1, h2, h3⟩⟩
    · rename_i hguard
      split at h
      · exact Option.noConfusion h
      · rename_i c2 st2 hstep
        obtain ⟨a, hs1, hs2, hs3, hs4, hs5, hs6, hs7, hs8⟩ := innerStep_spec hstep
        obtain ⟨tail2, ht1, ht2, ht3, ht4, ht5, ht6⟩ :=
          ih (apptNum + 1) c2 st2 c' st' h
        have hbound : st.created + 1 ≤ ctx.count.toNat := by
          push_neg at hguard
          omega
        refine ⟨a :: tail2, ?_, ?_, ?_, ?_, ?_, ?_⟩
        · rw [ht1, hs1]
          simp
        · intro b hb
          rcases List.mem_cons.mp hb with hb | hb
          · rw [hb]; exact hs4
          · exact ht2 b hb
        · rw [ht3, hs2]
          simp only [List.length_cons]
          omega
        · rw [ht4, hs3]
        · rw [hs2] at ht5
          omega
        · intro h1 h2 h3
          have hns2 : c2.noShows
              = genPastNoShows ctx.today patient.patientid st2.appts := by
            rw [hs1, genPastNoShows_append, genPastNoShows_singleton _ _ a hs4,
              hs7, h1]
          have htt2 : c2.total
              = genPastTotal ctx.today patient.patientid st2.appts := by
            rw [hs1, genPastTotal_append, genPastTotal_singleton _ _ a hs4,
              hs8, h2]
          have hsup2 : suppliedOK ctx.today st2.appts := by
            rw [hs1]
            apply suppliedOK_append _ _ _ h3
            · rw [hs5, h1, hs4]
            · rw [hs6, h1, h2, hs4]
          exact ht6 hns2 htt2 hsup2

/-- The running-statistics dictionary agrees with the per-patient past
counters over the appointments generated so far. -/
def StatsOK (today : ℤ) (st : SimSt) : Prop :=
  ∀ pid, (st.stats pid).no_shows = genPastNoShows today pid st.appts
       ∧ (st.stats pid).total = genPastTotal today pid st.appts

/-- Invariant of the generation loops: the list length tracks the counter,
the statistics dictionary is consistent, and every created appointment was
supplied history from strictly prior generation only. -/
def SimInv (ctx : GenCtx) (st : SimSt) : Prop :=
  st.appts.length = st.created ∧ StatsOK ctx.today st
    ∧ suppliedOK ctx.today st.appts

set_option maxHeartbeats 1000000 in
theorem processPatient_spec {ctx : GenCtx} {passNumber : ℕ} {patient : Patient}
    {st st' : SimSt} (h : processPatient ctx passNumber patient st = some st') :
    (SimInv ctx st → SimInv ctx st')
    ∧ st'.created ≤ max st.created ctx.count.toNat := by
  simp only [processPatient] at h
  split at h
  · exact Option.noConfusion h
  · rename_i c st2 hinner
    injection h with h
    subst h
    obtain ⟨tail, ht1, ht2, ht3, ht4, ht5, ht6⟩ :=
      innerLoop_spec ctx patient _ _ _ _ _ _ _ _ _ hinner
    constructor
    · rintro ⟨hlen, hstats, hsup⟩
      have hc1 : (st.stats patient.patientid).no_shows
          = genPastNoShows ctx.today patient.patientid st.appts :=
        (hstats patient.patientid).1
      have hc2 : (st.stats patient.patientid).total
          = genPastTotal ctx.today patient.patientid st.appts :=
        (hstats patient.patientid).2
      obtain ⟨hcn, hct, hcs⟩ := ht6 hc1 hc2 hsup
      refine ⟨?_, ?_, hcs⟩
      · simp only [ht1, ht3, List.length_append]
        omega
      · intro pid
        by_cases hp : pid = patient.patientid
        · subst hp
          simp only [if_pos rfl]
          exact ⟨hcn, hct⟩
        · simp only [if_neg hp]
          rw [ht4]
          have hz1 : genPastNoShows ctx.today pid tail = 0 := by
            apply List.countP_eq_zero.mpr
            intro b hb
            simp only [decide_eq_true_eq, not_and]
            intro hbp
            exact absurd (ht2 b hb ▸ hbp) (fun he => hp he.symm)
          have hz2 : genPastTotal ctx.today pid tail = 0 := by
            apply List.countP_eq_zero.mpr
            intro b hb
            simp only [decide_eq_true_eq, not_and]
            intro hbp
            exact absurd (ht2 b hb ▸ hbp) (fun he => hp he.symm)
          rw [ht1, genPastNoShows_append, genPastTotal_append, hz1, hz2]
          simpa using hstats pid
    · exact ht5

theorem passLoop_spec (ctx : GenCtx) (passNumber : ℕ) :
    ∀ (ps : List Patient) (st st' : SimSt),
    passLoop ctx passNumber ps st = some st' →
    (SimInv ctx st → SimInv ctx st')
    ∧ st'.created ≤ max st.created ctx.count.toNat := by
  intro ps
  induction ps with
  | nil =>
    intro st st' h
    simp only [passLoop] at h
    injection h with h
    subst h
    exact ⟨fun hi => hi, le_max_left _ _⟩
  | cons p rest ih =>
    intro st st' h
    simp only [passLoop] at h
    split at h
    · injection h with h
      subst h
      exact ⟨fun hi => hi, le_max_left _ _⟩
    · split at h
      · exact Option.noConfusion h
      · rename_i st2 hproc
        obtain ⟨hi2, hb2⟩ := processPatient_spec hproc
        obtain ⟨hi3, hb3⟩ := ih st2 st' h
        refine ⟨fun hi => hi3 (hi2 hi), ?_⟩
        omega

theorem whileLoop_spec (ctx : GenCtx) :
    ∀ (fuel passNumber : ℕ) (st st' : SimSt),
    whileLoop ctx fuel passNumber st = some st' →
    (SimInv ctx st → SimInv ctx st')
    ∧ st'.created ≤ max st.created ctx.count.toNat
    ∧ ctx.count ≤ (st'.created : ℤ) := by
  intro fuel
  induction fuel with
  | zero =>
    intro passNumber st st' h
    exact Option.noConfusion h
  | succ fuel ih =>
    intro passNumber st st' h
    simp only [whileLoop] at h
    split at h
    · rename_i hlt
      split at h
      · exact Option.noConfusion h
      · rename_i st2 hpass
        obtain ⟨hi2, hb2⟩ := passLoop_spec ctx (passNumber + 1) _ _ _ hpass
        obtain ⟨hi3, hb3, hc3⟩ := ih (passNumber + 1) st2 st' h
        dsimp only at hb2
        refine ⟨fun hi => hi3 (hi2 hi), ?_, hc3⟩
        omega
    · rename_i hge
      injection h with h
      subst h
      exact ⟨fun hi => hi, le_max_left _ _, by omega⟩

set_option maxHeartbeats 1000000 in
theorem generate_appointments_spec (patients : List Patient)
    (providers : List Provider) (departments : List Department)
    (insurance_records : List Insurance) (count : ℤ)
    (start_dateQ end_dateQ : Option ℤ) (today now : ℤ) (hashFn : String → ℤ)
    (fuel : ℕ) (rs npr : RS) (l : List Appointment) (ps : List Patient)
    (h : generate_appointments patients providers departments insurance_records
      count start_dateQ end_dateQ today now hashFn fuel rs npr = some (l, ps)) :
    ((l.length : ℤ) ≤ max 0 count)
    ∧ (0 ≤ count → (l.length : ℤ) = count)
    ∧ suppliedOK today l := by
  simp only [generate_appointments] at h
  split at h
  · exact Option.noConfusion h
  · rename_i st hwl
    injection h with h
    injection h with h1 h2
    subst h1
    obtain ⟨hinv, hbound, hcount⟩ := whileLoop_spec _ _ _ _ _ hwl
    obtain ⟨hlen, _, hsup⟩ :=
      hinv ⟨rfl, fun pid => ⟨rfl, rfl⟩, suppliedOK_nil _⟩
    dsimp only at hlen hbound hcount
    refine ⟨?_, ?_, hsup⟩
    · rw [hlen]
      omega
    · intro h0
      rw [hlen]
      omega

/-- The while loop makes no progress on an empty patient list: each pass
creates nothing, so no amount of fuel reaches a positive target. -/
theorem whileLoop_nil (ctx : GenCtx) (hpat : ctx.patients = [])
    (hcount : 0 < ctx.count) :
    ∀ (fuel passNumber : ℕ) (st : SimSt), st.created = 0 →
    whileLoop ctx fuel passNumber st = none := by
  intro fuel
  induction fuel with
  | zero => intro passN st h0; rfl
  | succ fuel ih =>
    intro passN st h0
    simp only [whileLoop, hpat]
    rw [if_pos (by rw [h0]; exact_mod_cast hcount)]
    simp only [sample, sampleAux, passLoop]
    exact ih (passN + 1) _ h0

/-- C2 counterexample (negation of the claimed overshoot): there is no
valid input on which generate_appointments returns strictly more than the
requested number of appointments. -/
theorem C2_no_overshoot_possible :
    ¬ ∃ (patients : List Patient) (providers : List Provider)
        (departments : List Department) (insurance_records : List Insurance)
        (count : ℤ) (start_dateQ end_dateQ : Option ℤ) (today now : ℤ)
        (hashFn : String → ℤ) (fuel : ℕ) (rs npr : RS) (l : List Appointment)
        (ps : List Patient),
      0 < count ∧ patients ≠ [] ∧
      generate_appointments patients providers departments insurance_records
        count start_dateQ end_dateQ today now hashFn fuel rs npr = some (l, ps)
      ∧ count < (l.length : ℤ) := by
  rintro ⟨patients, providers, departments, ins, count, sQ, eQ, today, now,
    hashFn, fuel, rs, npr, l, ps, hc, hne, hgen, hlong⟩
  have hb := (generate_appointments_spec _ _ _ _ _ _ _ _ _ _ _ _ _ _ _ hgen).1
  omega

/-- C2 amended: the pass loop stops once the cumulative count reaches the
target, and the per-appointment guard stops creation exactly there:
whenever generation completes for a nonnegative target, the returned list
has exactly the requested length, so no truncation is ever needed. -/
theorem C2_stops_exactly_at_target (patients : List Patient)
    (providers : List Provider) (departments : List Department)
    (insurance_records : List Insurance) (count : ℤ)
    (start_dateQ end_dateQ : Option ℤ) (today now : ℤ) (hashFn : String → ℤ)
    (fuel : ℕ) (rs npr : RS) (l : List Appointment) (ps : List Patient)
    (h0 : 0 ≤ count)
    (h : generate_appointments patients providers departments insurance_records
      count start_dateQ end_dateQ today now hashFn fuel rs npr = some (l, ps)) :
    (l.length : ℤ) = count :=
  (generate_appointments_spec _ _ _ _ _ _ _ _ _ _ _ _ _ _ _ h).2.1 h0

/-- Witness for C2 on a concrete terminating run with target 2. -/
theorem C2_stops_exactly_at_target_witness :
    ∃ (l : List Appointment) (ps : List Patient),
      generate_appointments [wPatient] [wProvider] [wDepartment] [wInsurance] 2
        none none 0 0 (fun _ => 0) 5 rsZero rsZero = some (l, ps)
      ∧ (l.length : ℤ) = 2 := by
  have hs : (generate_appointments [wPatient] [wProvider] [wDepartment]
      [wInsurance] 2 none none 0 0 (fun _ => 0) 5 rsZero rsZero).isSome
      = true := by decide
  obtain ⟨v, hv⟩ := Option.isSome_iff_exists.mp hs
  refine ⟨v.1, v.2, by rw [hv], ?_⟩
  exact C2_stops_exactly_at_target _ _ _ _ _ _ _ _ _ _ _ _ _ _ _ (by norm_num)
    (by rw [hv])

/-- C3: with zero patients the generator does not fail fast: a zero
patient count produces an empty patient list, and for any positive
appointment target the pass loop then runs forever (no fuel bound makes
it return), instead of raising a descriptive error before generation. -/
theorem C3_unreachable_target_diverges (providers : List Provider)
    (departments : List Department) (insurance_records : List Insurance)
    (count : ℤ) (start_dateQ end_dateQ : Option ℤ) (today now : ℤ)
    (hashFn : String → ℤ) (emailOf : ℕ → String) (r0 : RS) (fk : ℕ)
    (hcount : 0 < count) :
    (generate_patients 0 emailOf now r0 fk).1 = []
    ∧ ∀ (fuel : ℕ) (rs npr : RS),
        generate_appointments [] providers departments insurance_records count
          start_dateQ end_dateQ today now hashFn fuel rs npr = none := by
  constructor
  · simp [generate_patients, genPatientsLoop]
  · intro fuel rs npr
    simp only [generate_appointments, List.foldl_nil]
    rw [whileLoop_nil _ rfl hcount _ _ _ rfl]

/-- Witness for C3 at a concrete configuration. -/
theorem C3_unreachable_target_diverges_witness :
    (generate_patients 0 email0 0 rsZero 0).1 = []
    ∧ generate_appointments [] [wProvider] [wDepartment] [wInsurance] 1000 none
        none 0 0 (fun _ => 0) 50 rsZero rsZero = none :=
  ⟨(C3_unreachable_target_diverges [wProvider] [wDepartment] [wInsurance] 1000
      none none 0 0 (fun _ => 0) email0 rsZero 0 (by norm_num)).1,
   (C3_unreachable_target_diverges [wProvider] [wDepartment] [wInsurance] 1000
      none none 0 0 (fun _ => 0) email0 rsZero 0 (by norm_num)).2 50 rsZero
      rsZero⟩

/-- Checker for the claim that supplied history comes only from past
appointments with strictly earlier dates: for each appointment, the
supplied count must not exceed the number of No Show past appointments of
the same patient anywhere in the run whose date is strictly earlier. -/
def historyDateBoundAux (today : ℤ) (full : List Appointment) :
    List Appointment → Bool
  | [] => true
  | a :: rest =>
    decide (a.suppliedHistCount ≤
      (full.filter (fun b => decide (b.patientid = a.patientid
        ∧ b.appointmentdate ≤ today
        ∧ b.appointmentdate < a.appointmentdate
        ∧ b.appointmentstatus = AppointmentStatus.NO_SHOW))).length)
    && historyDateBoundAux today full rest

/-- Checker over a whole generated run. -/
def historyDateBound (today : ℤ) (l : List Appointment) : Bool :=
  historyDateBoundAux today l l

/-- C7 counterexample: on a concrete two-appointment run the second
generated appointment carries a supplied no-show count of 1 although the
run contains no appointment with a strictly earlier date at all: the
continuation date wrapped back to the window start, so the count came
from the first generated appointment, whose date is later.  The claim
that supplied history is computed only from appointments with strictly
earlier dates is therefore false on this input. -/
theorem C7_counterexample_wrap_around :
    (generate_appointments [wPatient] [wProvider] [wDepartment] [wInsurance] 2
        none none 0 0 (fun _ => 0) 5 rsWrap rsZero).map
      (fun r => historyDateBound 0 r.1) = some false
    ∧ (generate_appointments [wPatient] [wProvider] [wDepartment] [wInsurance] 2
        none none 0 0 (fun _ => 0) 5 rsWrap rsZero).map
      (fun r => r.1.map (fun a => (a.appointmentdate, a.suppliedHistCount)))
        = some [(-38, 0), (-688, 1)] := by
  constructor
  · decide
  · decide

/-- C7 amended: the history statistics supplied to the probability model
at each appointment are exactly the counters over the patient's strictly
prior appointments in generation order (past ones, by explicit No Show
status); because continuation dates can wrap back to the window start,
generation order does not imply strictly earlier calendar dates. -/
theorem C7_history_from_prior_generation (patients : List Patient)
    (providers : List Provider) (departments : List Department)
    (insurance_records : List Insurance) (count : ℤ)
    (start_dateQ end_dateQ : Option ℤ) (today now : ℤ) (hashFn : String → ℤ)
    (fuel : ℕ) (rs npr : RS) (l : List Appointment) (ps : List Patient)
    (h : generate_appointments patients providers departments insurance_records
      count start_dateQ end_dateQ today now hashFn fuel rs npr = some (l, ps)) :
    suppliedOK today l :=
  (generate_appointments_spec _ _ _ _ _ _ _ _ _ _ _ _ _ _ _ h).2.2

/-- Witness for C7 on the concrete wrap-around run. -/
theorem C7_history_from_prior_generation_witness :
    ∃ (l : List Appointment) (ps : List Patient),
      generate_appointments [wPatient] [wProvider] [wDepartment] [wInsurance] 2
        none none 0 0 (fun _ => 0) 5 rsWrap rsZero = some (l, ps)
      ∧ suppliedOK 0 l := by
  have hs : (generate_appointments [wPatient] [wProvider] [wDepartment]
      [wInsurance] 2 none none 0 0 (fun _ => 0) 5 rsWrap rsZero).isSome
      = true := by decide
  obtain ⟨v, hv⟩ := Option.isSome_iff_exists.mp hs
  refine ⟨v.1, v.2, by rw [hv], ?_⟩
  exact C7_history_from_prior_generation _ _ _ _ _ _ _ _ _ _ _ _ _ _ _
    (by rw [hv])

/-- C8: two runs that share all three seeded random streams are still
not byte-identical when the inputs outside those streams differ between
the runs: the wall clock read by datetime.now shifts every
portal_last_login timestamp, and the process-randomized Python string
hash changes every appointmenttypeid.  Both extra inputs vary across two
real executions, so identical seeds alone do not make the outputs
byte-identical, although the embedded generator is a pure function of
streams, clock and hash. -/
theorem C8_seed_alone_not_reproducible :
    ((generate_patients 1 email0 0 rsZero 0).1.map
        (fun p => p.portal_last_login)
      ≠ (generate_patients 1 email0 1440 rsZero 0).1.map
        (fun p => p.portal_last_login))
    ∧ ((generate_appointments [wPatient] [wProvider] [wDepartment] [wInsurance]
        1 none none 0 0 (fun _ => 0) 5 rsZero rsZero).map
          (fun r => r.1.map (fun a => a.appointmenttypeid))
      ≠ (generate_appointments [wPatient] [wProvider] [wDepartment] [wInsurance]
        1 none none 0 0 (fun _ => 1) 5 rsZero rsZero).map
          (fun r => r.1.map (fun a => a.appointmenttypeid)))
    ∧ (generate_patients 1 email0 0 rsZero 0
        = generate_patients 1 email0 0 rsZero 0) := by
  refine ⟨?_, ?_, rfl⟩
  · decide
  · decide
